import Mathlib

/-!
Verification of the batch dispatcher of the vertex-tester editor extension
(`src/extension.ts`, version 1.1.0 `activate` handler).

The dispatcher logic is embedded shallowly:

* `NodePath.basename`, `NodePath.dirname`, `NodePath.extname`, `NodePath.join`
  model the POSIX behaviour of Node's `path` module on the separator-free
  segments and absolute paths the extension manipulates.
* `Env` models the ambient world the handler reads: the file-picker result,
  the credential-file read, whether the output directory already exists, the
  outcome of `fs.mkdirSync`, and one `ExecResult` per spawned process.
* `runGenerateTests` is the handler itself.  Its synchronous part produces a
  list of `Event`s in program order (`dispatch`); each `exec` invocation
  contributes one completion-callback event list (`callbacks`), delivered
  later by the event loop in an unspecified order.
-/

namespace VertexTester

/-- POSIX `path.basename`: the portion of the path after the last `/`. -/
def NodePath.basename (p : String) : String :=
  ((p.data.reverse.takeWhile (fun c => c ≠ '/')).reverse).asString

/-- POSIX `path.dirname`: the portion of the path before the last `/`
(`"."` when there is no separator, `"/"` for a file at the root). -/
def NodePath.dirname (p : String) : String :=
  match p.data.reverse.dropWhile (fun c => c ≠ '/') with
  | [] => "."
  | [_] => "/"
  | _ :: tl => (tl.reverse).asString

/-- POSIX `path.extname`: the suffix of the basename from its last `.`
(dot included); empty when the basename has no dot or only a leading dot. -/
def NodePath.extname (p : String) : String :=
  let b := (NodePath.basename p).data
  let afterDot := b.reverse.takeWhile (fun c => c ≠ '.')
  if afterDot.length = b.length then ""
  else if afterDot.length + 1 = b.length ∧ b.headD ' ' = '.' then ""
  else (('.' :: afterDot.reverse)).asString

/-- POSIX `path.join` of a directory and a separator-free segment. -/
def NodePath.join (a b : String) : String :=
  if a.data.getLast? = some '/' then a ++ b else a ++ "/" ++ b

/-- JavaScript `String.prototype.trim`: strip leading and trailing
whitespace (modelled on the ASCII whitespace characters). -/
def jsTrim (s : String) : String :=
  (((s.data.dropWhile Char.isWhitespace).reverse.dropWhile
      Char.isWhitespace).reverse).asString

/-- JavaScript `String.prototype.toLowerCase` (ASCII case mapping). -/
def jsToLower (s : String) : String := (s.data.map Char.toLower).asString

/-- The result the OS reports to one `exec` callback: `error` is `some msg`
when the process failed to launch or exited non-zero (`msg` the
`error.message` text), `none` on exit status zero; `stdout` and `stderr` are
the captured streams. -/
structure ExecResult where
  error : Option String
  stdout : String
  stderr : String
  deriving DecidableEq, Repr

/-- Observable actions of the handler: the three `vscode.window.show*Message`
notifications, the two console channels, a child-process spawn carrying the
full command line, and a `fs.mkdirSync` call carrying the `recursive` flag. -/
inductive Event where
  | notifyWarning (msg : String)
  | notifyError (msg : String)
  | notifyInfo (msg : String)
  | consoleLog (msg : String)
  | consoleError (msg : String)
  | spawn (command : String)
  | mkdirCall (dir : String) (recursive : Bool)
  deriving DecidableEq, Repr

/-- The world the command handler reads.  `fileUris` is the dialog result
(`none` = cancelled); `apiKeyRead` the `fs.readFileSync` outcome on the
credential file; `testsDirExists` the `fs.existsSync(testsDir)` answer;
`mkdirResult` the `fs.mkdirSync` outcome (error text on throw); `execResults`
the per-process results, aligned with spawn order. -/
structure Env where
  fileUris : Option (List String)
  extensionPath : String
  apiKeyRead : Except Unit String
  testsDirExists : Bool
  mkdirResult : Except String Unit
  execResults : List ExecResult

/-- One batch run: the events the dispatch loop emits synchronously, in
program order, and one completion-callback event list per spawned process. -/
structure BatchRun where
  dispatch : List Event
  callbacks : List (List Event)
  deriving DecidableEq, Repr

/-- `language` tag of the loop body: `path.extname(filePath).toLowerCase()`
matched against the fixed extension table. -/
def detectLanguage (filePath : String) : String :=
  let fileExtension := jsToLower (NodePath.extname filePath)
  if fileExtension = ".py" then "Python"
  else if fileExtension = ".java" then "Java"
  else if fileExtension = ".js" then "JavaScript"
  else if fileExtension = ".ts" then "TypeScript"
  else "Unknown"

/-- The command line built in the loop body:
`python "<script>" "<file>" "<outputDir>" "<apiKey>"`. -/
def pythonCommand (scriptPath filePath outputDir apiKey : String) : String :=
  "python \"" ++ scriptPath ++ "\" \"" ++ filePath ++ "\" \"" ++ outputDir
    ++ "\" \"" ++ apiKey ++ "\""

/-- `testsDir`: the `tests` subdirectory of the directory of the first
selected file (`path.join(path.dirname(fileUris[0].fsPath), 'tests')`). -/
def batchOutputDir (files : List String) : String :=
  NodePath.join (NodePath.dirname (files.headD "")) "tests"

/-- Events of one `exec` completion callback: on `error`, a single error
notification naming the file; otherwise an optional `console.error` echo of
a non-empty `stderr`, the success notification, and the `console.log` of
`stdout`. -/
def execCallback (fileName language : String) (r : ExecResult) : List Event :=
  match r.error with
  | some msg =>
      [Event.notifyError ("ERROR: Error generating tests for " ++ fileName
        ++ ": " ++ msg)]
  | none =>
      (if r.stderr ≠ "" then
        [Event.consoleError ("stderr for " ++ fileName ++ ": " ++ r.stderr)]
       else [])
      ++ [Event.notifyInfo ("SUCCESS: AI " ++ language
            ++ " test file generated for " ++ fileName),
          Event.consoleLog ("AI generation results for " ++ fileName ++ ": "
            ++ r.stdout)]

/-- The synchronous events of the `for` loop: for the file at index `i`, the
progress notification then the `exec` spawn. -/
def loopEvents (scriptPath outputDir apiKey : String) (total : Nat) :
    Nat → List String → List Event
  | _, [] => []
  | i, f :: rest =>
      Event.notifyInfo ("🤖 AI generating " ++ detectLanguage f
          ++ " tests for file " ++ toString (i + 1) ++ " of " ++ toString total
          ++ ": " ++ NodePath.basename f)
        :: Event.spawn (pythonCommand scriptPath f outputDir apiKey)
        :: loopEvents scriptPath outputDir apiKey total (i + 1) rest

/-- The completion callbacks registered by the loop, one per spawned file,
paired with the `ExecResult` the OS reports for that invocation. -/
def callbacksFor (files : List String) (results : List ExecResult) :
    List (List Event) :=
  (files.zip results).map
    (fun p => execCallback (NodePath.basename p.1) (detectLanguage p.1) p.2)

/-- The `vertex-tester.generateTests` command handler.  Mirrors the source:
empty-selection warning; credential read, trim and emptiness gate; the
`Selected N file(s)` notification; `tests` directory existence check and
recursive creation; then the dispatch loop. -/
def runGenerateTests (env : Env) : BatchRun :=
  match env.fileUris with
  | none => ⟨[Event.notifyWarning "No files selected."], []⟩
  | some files =>
    if files.length = 0 then
      ⟨[Event.notifyWarning "No files selected."], []⟩
    else
      match env.apiKeyRead with
      | Except.error _ =>
          ⟨[Event.notifyError ("Could not read API key file. Please ensure "
              ++ "GOOGLE_CLOUD_API_KEY.txt exists in the extension folder.")],
           []⟩
      | Except.ok raw =>
          let apiKey := jsTrim raw
          if apiKey = "" then
            ⟨[Event.notifyError ("API key file is empty. Please add your "
                ++ "Google Cloud API key to GOOGLE_CLOUD_API_KEY.txt")], []⟩
          else
            let selectedEvent := Event.notifyInfo ("Selected "
              ++ toString files.length
              ++ " file(s) for multi-language AI test generation.")
            let testsDir := batchOutputDir files
            let scriptPath := NodePath.join env.extensionPath "main.py"
            if env.testsDirExists then
              ⟨selectedEvent
                 :: loopEvents scriptPath testsDir apiKey files.length 0 files,
               callbacksFor files env.execResults⟩
            else
              match env.mkdirResult with
              | Except.error e =>
                  ⟨[selectedEvent,
                    Event.notifyError ("Failed to create tests directory: "
                      ++ e)], []⟩
              | Except.ok _ =>
                  ⟨selectedEvent
                     :: Event.mkdirCall testsDir true
                     :: Event.consoleLog ("Created tests directory: "
                          ++ testsDir)
                     :: loopEvents scriptPath testsDir apiKey files.length 0
                          files,
                   callbacksFor files env.execResults⟩

/-- Project a spawn event to its command line. -/
def spawnOf : Event → Option String
  | Event.spawn c => some c
  | _ => none

/-- The command lines of the processes a run spawns, in submission order. -/
def spawnedCommands (b : BatchRun) : List String :=
  b.dispatch.filterMap spawnOf

def isSpawn (e : Event) : Bool := (spawnOf e).isSome

def isNotifyError : Event → Bool
  | Event.notifyError _ => true
  | _ => false

def isNotifyInfo : Event → Bool
  | Event.notifyInfo _ => true
  | _ => false

def isMkdirCall : Event → Bool
  | Event.mkdirCall _ _ => true
  | _ => false

/-- A complete observable trace of one batch under the single-threaded
event-loop semantics: the handler's synchronous events run to completion
first, then each registered completion callback runs atomically, the
callbacks in an arbitrary order chosen by the scheduler. -/
def BatchTrace (env : Env) (t : List Event) : Prop :=
  ∃ order : List (List Event),
    (runGenerateTests env).callbacks.Perm order ∧
    t = (runGenerateTests env).dispatch ++ order.flatten

/-! ### Helper lemmas -/

lemma loopEvents_filterMap_spawn (scriptPath outputDir apiKey : String)
    (total : Nat) :
    ∀ (i : Nat) (fs : List String),
      (loopEvents scriptPath outputDir apiKey total i fs).filterMap spawnOf
        = fs.map (fun f => pythonCommand scriptPath f outputDir apiKey) := by
  intro i fs
  induction fs generalizing i with
  | nil => simp [loopEvents]
  | cons f rest ih => simp [loopEvents, spawnOf, ih]

lemma loopEvents_countP_mkdir (scriptPath outputDir apiKey : String)
    (total : Nat) :
    ∀ (i : Nat) (fs : List String),
      (loopEvents scriptPath outputDir apiKey total i fs).countP isMkdirCall
        = 0 := by
  intro i fs
  induction fs generalizing i with
  | nil => simp [loopEvents]
  | cons f rest ih => simp [loopEvents, isMkdirCall, List.countP_cons, ih]

lemma countP_isSpawn_eq_length_filterMap (l : List Event) :
    l.countP isSpawn = (l.filterMap spawnOf).length := by
  induction l with
  | nil => simp
  | cons e rest ih =>
      cases e <;> simp [isSpawn, spawnOf, List.countP_cons, ih]

lemma runGenerateTests_dirExists (env : Env) (files : List String)
    (raw : String) (hsel : env.fileUris = some files) (hne : files ≠ [])
    (hread : env.apiKeyRead = Except.ok raw) (hkey : jsTrim raw ≠ "")
    (hdir : env.testsDirExists = true) :
    runGenerateTests env =
      ⟨Event.notifyInfo ("Selected " ++ toString files.length
          ++ " file(s) for multi-language AI test generation.")
         :: loopEvents (NodePath.join env.extensionPath "main.py")
              (batchOutputDir files) (jsTrim raw) files.length 0 files,
       callbacksFor files env.execResults⟩ := by
  unfold runGenerateTests
  rw [hsel, hread]
  simp [hne, hkey, hdir, List.length_eq_zero]

lemma runGenerateTests_mkdirOk (env : Env) (files : List String)
    (raw : String) (hsel : env.fileUris = some files) (hne : files ≠ [])
    (hread : env.apiKeyRead = Except.ok raw) (hkey : jsTrim raw ≠ "")
    (hmiss : env.testsDirExists = false)
    (hmk : env.mkdirResult = Except.ok ()) :
    runGenerateTests env =
      ⟨Event.notifyInfo ("Selected " ++ toString files.length
          ++ " file(s) for multi-language AI test generation.")
         :: Event.mkdirCall (batchOutputDir files) true
         :: Event.consoleLog ("Created tests directory: "
              ++ batchOutputDir files)
         :: loopEvents (NodePath.join env.extensionPath "main.py")
              (batchOutputDir files) (jsTrim raw) files.length 0 files,
       callbacksFor files env.execResults⟩ := by
  unfold runGenerateTests
  rw [hsel, hread, hmk]
  simp [hne, hkey, hmiss, List.length_eq_zero]

lemma spawnedCommands_run_ok (env : Env) (files : List String) (raw : String)
    (hsel : env.fileUris = some files) (hne : files ≠ [])
    (hread : env.apiKeyRead = Except.ok raw) (hkey : jsTrim raw ≠ "")
    (hdir : env.testsDirExists = true ∨ env.mkdirResult = Except.ok ()) :
    spawnedCommands (runGenerateTests env)
      = files.map (fun f =>
          pythonCommand (NodePath.join env.extensionPath "main.py") f
            (batchOutputDir files) (jsTrim raw)) := by
  cases hx : env.testsDirExists with
  | true =>
      rw [runGenerateTests_dirExists env files raw hsel hne hread hkey hx]
      simp [spawnedCommands, spawnOf, loopEvents_filterMap_spawn]
  | false =>
      rcases hdir with h | h
      · rw [hx] at h; exact absurd h (by simp)
      · rw [runGenerateTests_mkdirOk env files raw hsel hne hread hkey hx h]
        simp [spawnedCommands, spawnOf, loopEvents_filterMap_spawn]

lemma callbacks_run_ok (env : Env) (files : List String) (raw : String)
    (hsel : env.fileUris = some files) (hne : files ≠ [])
    (hread : env.apiKeyRead = Except.ok raw) (hkey : jsTrim raw ≠ "")
    (hdir : env.testsDirExists = true ∨ env.mkdirResult = Except.ok ()) :
    (runGenerateTests env).callbacks = callbacksFor files env.execResults := by
  cases hx : env.testsDirExists with
  | true =>
      rw [runGenerateTests_dirExists env files raw hsel hne hread hkey hx]
  | false =>
      rcases hdir with h | h
      · rw [hx] at h; exact absurd h (by simp)
      · rw [runGenerateTests_mkdirOk env files raw hsel hne hread hkey hx h]

lemma execCallback_countP_spawn (n lg : String) (r : ExecResult) :
    (execCallback n lg r).countP isSpawn = 0 := by
  unfold execCallback
  cases r.error <;> by_cases h : r.stderr = "" <;>
    simp [h, isSpawn, spawnOf, List.countP_cons]

lemma execCallback_countP_err (n lg : String) (r : ExecResult) :
    (execCallback n lg r).countP isNotifyError
      = if r.error.isSome then 1 else 0 := by
  unfold execCallback
  cases r.error <;> by_cases h : r.stderr = "" <;>
    simp [h, isNotifyError, List.countP_cons]

lemma execCallback_countP_info (n lg : String) (r : ExecResult) :
    (execCallback n lg r).countP isNotifyInfo
      = if r.error.isSome then 0 else 1 := by
  unfold execCallback
  cases r.error <;> by_cases h : r.stderr = "" <;>
    simp [h, isNotifyInfo, List.countP_cons]

lemma execCallback_of_error (n lg msg : String) (r : ExecResult)
    (h : r.error = some msg) :
    execCallback n lg r
      = [Event.notifyError ("ERROR: Error generating tests for " ++ n
          ++ ": " ++ msg)] := by
  simp [execCallback, h]

lemma callbacksFor_cons (f : String) (fs : List String) (r : ExecResult)
    (rs : List ExecResult) :
    callbacksFor (f :: fs) (r :: rs)
      = execCallback (NodePath.basename f) (detectLanguage f) r
          :: callbacksFor fs rs := by
  simp [callbacksFor]

lemma callbacksFor_append (fs₁ fs₂ : List String)
    (rs₁ rs₂ : List ExecResult) (h : fs₁.length = rs₁.length) :
    callbacksFor (fs₁ ++ fs₂) (rs₁ ++ rs₂)
      = callbacksFor fs₁ rs₁ ++ callbacksFor fs₂ rs₂ := by
  simp [callbacksFor, List.zip_append h]

lemma callbacksFor_length (fs : List String) (rs : List ExecResult)
    (h : fs.length = rs.length) :
    (callbacksFor fs rs).length = fs.length := by
  simp [callbacksFor, List.length_zip, h]

lemma callbacksFor_countP_err (fs : List String) :
    ∀ rs : List ExecResult, fs.length = rs.length →
      ((callbacksFor fs rs).flatten).countP isNotifyError
        = rs.countP (fun r => r.error.isSome) := by
  induction fs with
  | nil =>
      intro rs h
      cases rs with
      | nil => simp [callbacksFor]
      | cons r rs => simp at h
  | cons f fs ih =>
      intro rs h
      cases rs with
      | nil => simp at h
      | cons r rs =>
          rw [callbacksFor_cons]
          simp only [List.flatten_cons, List.countP_append, List.countP_cons]
          rw [execCallback_countP_err, ih rs (by simpa using h)]
          cases hx : r.error <;> simp [hx, Nat.add_comm]

lemma callbacksFor_countP_info (fs : List String) :
    ∀ rs : List ExecResult, fs.length = rs.length →
      ((callbacksFor fs rs).flatten).countP isNotifyInfo
        = rs.countP (fun r => r.error.isNone) := by
  induction fs with
  | nil =>
      intro rs h
      cases rs with
      | nil => simp [callbacksFor]
      | cons r rs => simp at h
  | cons f fs ih =>
      intro rs h
      cases rs with
      | nil => simp at h
      | cons r rs =>
          rw [callbacksFor_cons]
          simp only [List.flatten_cons, List.countP_append, List.countP_cons]
          rw [execCallback_countP_info, ih rs (by simpa using h)]
          cases hx : r.error <;> simp [hx, Nat.add_comm]

lemma callbacksFor_mem_countP_spawn (fs : List String)
    (rs : List ExecResult) (l : List Event) (h : l ∈ callbacksFor fs rs) :
    l.countP isSpawn = 0 := by
  simp only [callbacksFor, List.mem_map] at h
  obtain ⟨p, _, rfl⟩ := h
  exact execCallback_countP_spawn _ _ _

lemma flatten_countP_zero (ls : List (List Event)) (p : Event → Bool)
    (h : ∀ l ∈ ls, l.countP p = 0) : ls.flatten.countP p = 0 := by
  rw [List.countP_flatten]
  exact List.sum_eq_zero (by simpa using h)

lemma jsTrim_nil : jsTrim "" = "" := by decide

/-! ### Concrete environments used by the witnesses -/

/-- A passing batch: two files, whitespace-padded credential, missing output
directory that gets created, first process succeeding with non-empty stderr,
second failing. -/
def envBatch : Env where
  fileUris := some ["/p/Foo.java", "/q/Bar.py"]
  extensionPath := "/ext"
  apiKeyRead := Except.ok " KEY123\n"
  testsDirExists := false
  mkdirResult := Except.ok ()
  execResults := [⟨none, "ok", "warn"⟩, ⟨some "boom", "", ""⟩]

/-- A batch whose credential file cannot be read. -/
def envNoKey : Env where
  fileUris := some ["/p/Foo.java"]
  extensionPath := "/ext"
  apiKeyRead := Except.error ()
  testsDirExists := true
  mkdirResult := Except.ok ()
  execResults := []

/-- A batch whose credential file holds only whitespace. -/
def envBlankKey : Env where
  fileUris := some ["/p/Foo.java"]
  extensionPath := "/ext"
  apiKeyRead := Except.ok "  \n\t "
  testsDirExists := true
  mkdirResult := Except.ok ()
  execResults := []

/-- A batch where creating the output directory fails. -/
def envMkdirFail : Env where
  fileUris := some ["/p/Foo.java"]
  extensionPath := "/ext"
  apiKeyRead := Except.ok "KEY"
  testsDirExists := false
  mkdirResult := Except.error "EACCES"
  execResults := []

/-- A cancelled file dialog. -/
def envCancelled : Env where
  fileUris := none
  extensionPath := "/ext"
  apiKeyRead := Except.ok "KEY"
  testsDirExists := true
  mkdirResult := Except.ok ()
  execResults := []

/-! ### Claims -/

/-- Claim C1: when the batch preconditions pass (non-empty selection,
readable credential with non-empty trimmed content, output directory already
present or created), the run spawns exactly one external process per
selected file, in selection order, and every command line is
`python "<script>" "<file>" "<outputDir>" "<apiKey>"` — exactly three
positional arguments after the script path, with the output directory and
the credential identical across all invocations of the batch. -/
theorem batchSpawnsOnePerFile (env : Env) (files : List String) (raw : String)
    (hsel : env.fileUris = some files) (hne : files ≠ [])
    (hread : env.apiKeyRead = Except.ok raw) (hkey : jsTrim raw ≠ "")
    (hdir : env.testsDirExists = true ∨ env.mkdirResult = Except.ok ()) :
    spawnedCommands (runGenerateTests env)
      = files.map (fun f =>
          pythonCommand (NodePath.join env.extensionPath "main.py") f
            (batchOutputDir files) (jsTrim raw)) ∧
    (spawnedCommands (runGenerateTests env)).length = files.length := by
  have h := spawnedCommands_run_ok env files raw hsel hne hread hkey hdir
  exact ⟨h, by rw [h, List.length_map]⟩

theorem batchSpawnsOnePerFile_witness :
    spawnedCommands (runGenerateTests envBatch)
      = (["/p/Foo.java", "/q/Bar.py"]).map (fun f =>
          pythonCommand (NodePath.join "/ext" "main.py") f
            (batchOutputDir ["/p/Foo.java", "/q/Bar.py"])
            (jsTrim " KEY123\n")) ∧
    (spawnedCommands (runGenerateTests envBatch)).length = 2 :=
  batchSpawnsOnePerFile envBatch ["/p/Foo.java", "/q/Bar.py"] " KEY123\n"
    rfl (by decide) rfl (by decide) (Or.inr rfl)

/-- Claim C3: when the credential file is unreadable or its content empty,
the handler shows an error notification and aborts before spawning: no
process is spawned and no completion callback is ever registered. -/
theorem credentialGate (env : Env) (files : List String)
    (hsel : env.fileUris = some files) (hne : files ≠ [])
    (hcred : env.apiKeyRead = Except.error ()
      ∨ env.apiKeyRead = Except.ok "") :
    spawnedCommands (runGenerateTests env) = [] ∧
    (runGenerateTests env).callbacks = [] ∧
    ∃ m, Event.notifyError m ∈ (runGenerateTests env).dispatch := by
  rcases hcred with h | h
  · unfold runGenerateTests
    rw [hsel, h]
    simp [hne, List.length_eq_zero, spawnedCommands, spawnOf]
  · unfold runGenerateTests
    rw [hsel, h]
    simp [hne, List.length_eq_zero, jsTrim_nil, spawnedCommands, spawnOf]

theorem credentialGate_witness :
    spawnedCommands (runGenerateTests envNoKey) = [] ∧
    (runGenerateTests envNoKey).callbacks = [] ∧
    ∃ m, Event.notifyError m ∈ (runGenerateTests envNoKey).dispatch :=
  credentialGate envNoKey ["/p/Foo.java"] rfl (by decide) (Or.inl rfl)

/-- Claim C5: the language tag is a pure function of the filename's
lower-cased extension under the fixed table `.py`→Python, `.java`→Java,
`.js`→JavaScript, `.ts`→TypeScript, anything else→Unknown; `Foo.java` maps
to `"Java"`, `Foo.xyz` to `"Unknown"`, and two paths with equal extensions
always receive the same tag (file contents do not enter the function). -/
theorem languageTagFromExt :
    (∀ p, jsToLower (NodePath.extname p) = ".py" →
      detectLanguage p = "Python") ∧
    (∀ p, jsToLower (NodePath.extname p) = ".java" →
      detectLanguage p = "Java") ∧
    (∀ p, jsToLower (NodePath.extname p) = ".js" →
      detectLanguage p = "JavaScript") ∧
    (∀ p, jsToLower (NodePath.extname p) = ".ts" →
      detectLanguage p = "TypeScript") ∧
    (∀ p, jsToLower (NodePath.extname p)
        ∉ ([".py", ".java", ".js", ".ts"] : List String) →
      detectLanguage p = "Unknown") ∧
    detectLanguage "Foo.java" = "Java" ∧
    detectLanguage "Foo.xyz" = "Unknown" ∧
    (∀ p q, NodePath.extname p = NodePath.extname q →
      detectLanguage p = detectLanguage q) := by
  refine ⟨?_, ?_, ?_, ?_, ?_, by decide, by decide, ?_⟩
  · intro p h; unfold detectLanguage; rw [h]; decide
  · intro p h; unfold detectLanguage; rw [h]; decide
  · intro p h; unfold detectLanguage; rw [h]; decide
  · intro p h; unfold detectLanguage; rw [h]; decide
  · intro p h
    simp only [List.mem_cons, List.not_mem_nil, or_false, not_or] at h
    obtain ⟨h1, h2, h3, h4⟩ := h
    simp [detectLanguage, h1, h2, h3, h4]
  · intro p q hpq; simp [detectLanguage, hpq]

theorem languageTagFromExt_witness :
    detectLanguage "/w/Prog.JAVA" = "Java" :=
  languageTagFromExt.2.1 "/w/Prog.JAVA" (by decide)

/-- Claim C6: with zero selected files — the dialog cancelled (`none`) or an
empty selection — the handler shows the warning and stops: no process is
spawned and no callback is registered. -/
theorem emptySelectionGate (env : Env)
    (hsel : env.fileUris = none ∨ env.fileUris = some []) :
    (runGenerateTests env).dispatch
      = [Event.notifyWarning "No files selected."] ∧
    spawnedCommands (runGenerateTests env) = [] ∧
    (runGenerateTests env).callbacks = [] := by
  rcases hsel with h | h
  · unfold runGenerateTests
    rw [h]
    simp [spawnedCommands, spawnOf]
  · unfold runGenerateTests
    rw [h]
    simp [spawnedCommands, spawnOf]

theorem emptySelectionGate_witness :
    (runGenerateTests envCancelled).dispatch
      = [Event.notifyWarning "No files selected."] ∧
    spawnedCommands (runGenerateTests envCancelled) = [] ∧
    (runGenerateTests envCancelled).callbacks = [] :=
  emptySelectionGate envCancelled (Or.inl rfl)

/-- Claim C8: a completion with exit status zero and non-empty stderr still
produces the success notification; the stderr text goes only to the
diagnostic console (`console.error`) and no error notification is emitted. -/
theorem stderrNotFatal (fileName langTag : String) (r : ExecResult)
    (hzero : r.error = none) (hstderr : r.stderr ≠ "") :
    execCallback fileName langTag r
      = [Event.consoleError ("stderr for " ++ fileName ++ ": " ++ r.stderr),
         Event.notifyInfo ("SUCCESS: AI " ++ langTag
           ++ " test file generated for " ++ fileName),
         Event.consoleLog ("AI generation results for " ++ fileName
           ++ ": " ++ r.stdout)] ∧
    (execCallback fileName langTag r).countP isNotifyError = 0 ∧
    (execCallback fileName langTag r).countP isNotifyInfo = 1 := by
  refine ⟨?_, ?_, ?_⟩
  · simp [execCallback, hzero, hstderr]
  · rw [execCallback_countP_err]; simp [hzero]
  · rw [execCallback_countP_info]; simp [hzero]

theorem stderrNotFatal_witness :
    execCallback "Foo.java" "Java" ⟨none, "out", "warn"⟩
      = [Event.consoleError ("stderr for " ++ "Foo.java" ++ ": " ++ "warn"),
         Event.notifyInfo ("SUCCESS: AI " ++ "Java"
           ++ " test file generated for " ++ "Foo.java"),
         Event.consoleLog ("AI generation results for " ++ "Foo.java"
           ++ ": " ++ "out")] ∧
    (execCallback "Foo.java" "Java" ⟨none, "out", "warn"⟩).countP
        isNotifyError = 0 ∧
    (execCallback "Foo.java" "Java" ⟨none, "out", "warn"⟩).countP
        isNotifyInfo = 1 :=
  stderrNotFatal "Foo.java" "Java" ⟨none, "out", "warn"⟩ rfl (by decide)

/-- Claim C2: when exactly one invocation fails (results decompose as
all-success `rs₁`, the failure `r`, all-success `rs₂`, aligned with the
selection `fs₁ ++ f :: fs₂`), the callbacks contain exactly one error
notification — naming the failing file — and N−1 success notifications,
wherever the failure sits in the selection order; the batch still spawns
all N processes, so no retry occurs and no sibling invocation is halted. -/
theorem failureIsolated (env : Env) (fs₁ fs₂ : List String) (f : String)
    (rs₁ rs₂ : List ExecResult) (r : ExecResult) (msg raw : String)
    (hsel : env.fileUris = some (fs₁ ++ f :: fs₂))
    (hread : env.apiKeyRead = Except.ok raw) (hkey : jsTrim raw ≠ "")
    (hdir : env.testsDirExists = true ∨ env.mkdirResult = Except.ok ())
    (hres : env.execResults = rs₁ ++ r :: rs₂)
    (hlen₁ : fs₁.length = rs₁.length) (hlen₂ : fs₂.length = rs₂.length)
    (hfail : r.error = some msg)
    (hok₁ : ∀ x ∈ rs₁, x.error = none)
    (hok₂ : ∀ x ∈ rs₂, x.error = none) :
    (runGenerateTests env).callbacks
      = callbacksFor fs₁ rs₁
        ++ [Event.notifyError ("ERROR: Error generating tests for "
              ++ NodePath.basename f ++ ": " ++ msg)]
          :: callbacksFor fs₂ rs₂ ∧
    ((runGenerateTests env).callbacks.flatten).countP isNotifyError = 1 ∧
    ((runGenerateTests env).callbacks.flatten).countP isNotifyInfo
      = (fs₁ ++ f :: fs₂).length - 1 ∧
    (spawnedCommands (runGenerateTests env)).length
      = (fs₁ ++ f :: fs₂).length := by
  have hne : (fs₁ ++ f :: fs₂) ≠ [] := by simp
  have hcb :=
    callbacks_run_ok env (fs₁ ++ f :: fs₂) raw hsel hne hread hkey hdir
  have hdecomp : callbacksFor (fs₁ ++ f :: fs₂) (rs₁ ++ r :: rs₂)
      = callbacksFor fs₁ rs₁
        ++ execCallback (NodePath.basename f) (detectLanguage f) r
            :: callbacksFor fs₂ rs₂ := by
    rw [callbacksFor_append fs₁ (f :: fs₂) rs₁ (r :: rs₂) hlen₁,
      callbacksFor_cons]
  have herr :=
    execCallback_of_error (NodePath.basename f) (detectLanguage f) msg r hfail
  have hzero₁ : rs₁.countP (fun x => x.error.isSome) = 0 :=
    List.countP_eq_zero.mpr (by intro a ha; simp [hok₁ a ha])
  have hzero₂ : rs₂.countP (fun x => x.error.isSome) = 0 :=
    List.countP_eq_zero.mpr (by intro a ha; simp [hok₂ a ha])
  have hall₁ : rs₁.countP (fun x => x.error.isNone) = rs₁.length :=
    List.countP_eq_length.mpr (by intro a ha; simp [hok₁ a ha])
  have hall₂ : rs₂.countP (fun x => x.error.isNone) = rs₂.length :=
    List.countP_eq_length.mpr (by intro a ha; simp [hok₂ a ha])
  refine ⟨?_, ?_, ?_, ?_⟩
  · rw [hcb, hres, hdecomp, herr]
  · rw [hcb, hres, hdecomp, herr]
    simp only [List.flatten_append, List.flatten_cons, List.countP_append]
    rw [callbacksFor_countP_err fs₁ rs₁ hlen₁,
      callbacksFor_countP_err fs₂ rs₂ hlen₂, hzero₁, hzero₂]
    simp [isNotifyError, List.countP_cons]
  · rw [hcb, hres, hdecomp, herr]
    simp only [List.flatten_append, List.flatten_cons, List.countP_append]
    rw [callbacksFor_countP_info fs₁ rs₁ hlen₁,
      callbacksFor_countP_info fs₂ rs₂ hlen₂, hall₁, hall₂]
    simp [isNotifyInfo, List.countP_cons]
    omega
  · rw [spawnedCommands_run_ok env (fs₁ ++ f :: fs₂) raw hsel hne hread hkey
      hdir]
    simp

theorem failureIsolated_witness :
    (runGenerateTests envBatch).callbacks
      = callbacksFor ["/p/Foo.java"] [⟨none, "ok", "warn"⟩]
        ++ [Event.notifyError ("ERROR: Error generating tests for "
              ++ NodePath.basename "/q/Bar.py" ++ ": " ++ "boom")]
          :: callbacksFor [] [] ∧
    ((runGenerateTests envBatch).callbacks.flatten).countP isNotifyError
      = 1 ∧
    ((runGenerateTests envBatch).callbacks.flatten).countP isNotifyInfo
      = (["/p/Foo.java"] ++ "/q/Bar.py" :: []).length - 1 ∧
    (spawnedCommands (runGenerateTests envBatch)).length
      = (["/p/Foo.java"] ++ "/q/Bar.py" :: []).length :=
  failureIsolated envBatch ["/p/Foo.java"] [] "/q/Bar.py"
    [⟨none, "ok", "warn"⟩] [] ⟨some "boom", "", ""⟩ "boom" " KEY123\n"
    rfl rfl (by decide) (Or.inr rfl) rfl rfl rfl rfl
    (by decide) (by decide)

/-- Claim C4: with the output directory missing, a successful run performs
exactly one recursive `mkdir` of the shared `tests` directory, and it
happens before any process is spawned; when the creation fails, an error
notification is shown and no process is spawned. -/
theorem testsDirCreation (env : Env) (files : List String) (raw : String)
    (hsel : env.fileUris = some files) (hne : files ≠ [])
    (hread : env.apiKeyRead = Except.ok raw) (hkey : jsTrim raw ≠ "")
    (hmiss : env.testsDirExists = false) :
    (env.mkdirResult = Except.ok () →
      ∃ pre post,
        (runGenerateTests env).dispatch
          = pre ++ Event.mkdirCall (batchOutputDir files) true :: post ∧
        pre.countP isSpawn = 0 ∧
        ((runGenerateTests env).dispatch).countP isMkdirCall = 1) ∧
    (∀ e, env.mkdirResult = Except.error e →
      spawnedCommands (runGenerateTests env) = [] ∧
      (runGenerateTests env).callbacks = [] ∧
      Event.notifyError ("Failed to create tests directory: " ++ e)
        ∈ (runGenerateTests env).dispatch) := by
  constructor
  · intro hmk
    rw [runGenerateTests_mkdirOk env files raw hsel hne hread hkey hmiss hmk]
    refine ⟨[Event.notifyInfo ("Selected " ++ toString files.length
        ++ " file(s) for multi-language AI test generation.")],
      Event.consoleLog ("Created tests directory: " ++ batchOutputDir files)
        :: loopEvents (NodePath.join env.extensionPath "main.py")
            (batchOutputDir files) (jsTrim raw) files.length 0 files,
      by simp, by simp [isSpawn, spawnOf, List.countP_cons], ?_⟩
    simp [isMkdirCall, List.countP_cons, loopEvents_countP_mkdir]
  · intro e hmk
    unfold runGenerateTests
    rw [hsel, hread, hmk]
    simp [hne, hkey, hmiss, List.length_eq_zero, spawnedCommands, spawnOf]

theorem testsDirCreation_witness :
    (spawnedCommands (runGenerateTests envMkdirFail) = [] ∧
     (runGenerateTests envMkdirFail).callbacks = [] ∧
     Event.notifyError ("Failed to create tests directory: " ++ "EACCES")
       ∈ (runGenerateTests envMkdirFail).dispatch) ∧
    (∃ pre post,
       (runGenerateTests envBatch).dispatch
         = pre
           ++ Event.mkdirCall (batchOutputDir ["/p/Foo.java", "/q/Bar.py"])
                true :: post ∧
       pre.countP isSpawn = 0 ∧
       ((runGenerateTests envBatch).dispatch).countP isMkdirCall = 1) :=
  ⟨(testsDirCreation envMkdirFail ["/p/Foo.java"] "KEY" rfl (by decide) rfl
      (by decide) rfl).2 "EACCES" rfl,
   (testsDirCreation envBatch ["/p/Foo.java", "/q/Bar.py"] " KEY123\n" rfl
      (by decide) rfl (by decide) rfl).1 rfl⟩

/-- Claim C7: under the single-threaded event-loop semantics every complete
batch trace starts with the full synchronous dispatch prefix — all N spawns
are submitted before any completion callback contributes an event, and no
spawn occurs afterwards — and every permutation of the completion callbacks
yields a valid trace, so the notification order carries no guarantee
relative to submission order. -/
theorem dispatchBeforeCallbacks (env : Env) (files : List String)
    (raw : String)
    (hsel : env.fileUris = some files) (hne : files ≠ [])
    (hread : env.apiKeyRead = Except.ok raw) (hkey : jsTrim raw ≠ "")
    (hdir : env.testsDirExists = true ∨ env.mkdirResult = Except.ok ()) :
    (∀ t, BatchTrace env t →
      t.take ((runGenerateTests env).dispatch.length)
        = (runGenerateTests env).dispatch ∧
      (t.drop ((runGenerateTests env).dispatch.length)).countP isSpawn
        = 0) ∧
    ((runGenerateTests env).dispatch).countP isSpawn = files.length ∧
    (∀ order, (runGenerateTests env).callbacks.Perm order →
      BatchTrace env ((runGenerateTests env).dispatch ++ order.flatten)) := by
  refine ⟨?_, ?_, ?_⟩
  · rintro t ⟨order, hperm, rfl⟩
    refine ⟨List.take_left _ _, ?_⟩
    rw [List.drop_left]
    refine flatten_countP_zero order isSpawn ?_
    intro l hl
    have hl0 : l ∈ (runGenerateTests env).callbacks := hperm.mem_iff.mpr hl
    rw [callbacks_run_ok env files raw hsel hne hread hkey hdir] at hl0
    exact callbacksFor_mem_countP_spawn _ _ _ hl0
  · rw [countP_isSpawn_eq_length_filterMap]
    have h := spawnedCommands_run_ok env files raw hsel hne hread hkey hdir
    unfold spawnedCommands at h
    rw [h, List.length_map]
  · intro order hperm
    exact ⟨order, hperm, rfl⟩

theorem dispatchBeforeCallbacks_witness :
    ((runGenerateTests envBatch).dispatch).countP isSpawn = 2 :=
  (dispatchBeforeCallbacks envBatch ["/p/Foo.java", "/q/Bar.py"] " KEY123\n"
    rfl (by decide) rfl (by decide) (Or.inr rfl)).2.1

/-- Claim C9: the credential is trimmed before both the emptiness check and
the forwarding: a whitespace-only credential file aborts the batch exactly
like an empty one (error notification, zero spawns), and every spawned
command embeds the trimmed content rather than the verbatim file content. -/
theorem credentialTrimmed (env : Env) (files : List String) (raw : String)
    (hsel : env.fileUris = some files) (hne : files ≠ [])
    (hread : env.apiKeyRead = Except.ok raw) :
    (jsTrim raw = "" →
      spawnedCommands (runGenerateTests env) = [] ∧
      (runGenerateTests env).callbacks = [] ∧
      Event.notifyError ("API key file is empty. Please add your "
          ++ "Google Cloud API key to GOOGLE_CLOUD_API_KEY.txt")
        ∈ (runGenerateTests env).dispatch) ∧
    (jsTrim raw ≠ "" →
      env.testsDirExists = true ∨ env.mkdirResult = Except.ok () →
      ∀ c ∈ spawnedCommands (runGenerateTests env),
        ∃ f ∈ files,
          c = pythonCommand (NodePath.join env.extensionPath "main.py") f
                (batchOutputDir files) (jsTrim raw)) := by
  constructor
  · intro hempty
    unfold runGenerateTests
    rw [hsel, hread]
    simp [hne, List.length_eq_zero, hempty, spawnedCommands, spawnOf]
  · intro hkey hdir c hc
    rw [spawnedCommands_run_ok env files raw hsel hne hread hkey hdir] at hc
    simp only [List.mem_map] at hc
    obtain ⟨f, hf, rfl⟩ := hc
    exact ⟨f, hf, rfl⟩

theorem credentialTrimmed_witness :
    spawnedCommands (runGenerateTests envBlankKey) = [] ∧
    (runGenerateTests envBlankKey).callbacks = [] ∧
    Event.notifyError ("API key file is empty. Please add your "
        ++ "Google Cloud API key to GOOGLE_CLOUD_API_KEY.txt")
      ∈ (runGenerateTests envBlankKey).dispatch :=
  (credentialTrimmed envBlankKey ["/p/Foo.java"] "  \n\t " rfl (by decide)
    rfl).1 (by decide)

/-- Claim C10: the shared output directory is the `tests` subdirectory of
the directory containing the first selected file; it depends only on that
first file — any batch with the same first file gets the same directory —
and every spawned command of the batch embeds it, including commands for
files selected from other directories. -/
theorem outputDirFromFirstFile (env : Env) (files : List String)
    (raw : String)
    (hsel : env.fileUris = some files) (hne : files ≠ [])
    (hread : env.apiKeyRead = Except.ok raw) (hkey : jsTrim raw ≠ "")
    (hdir : env.testsDirExists = true ∨ env.mkdirResult = Except.ok ()) :
    batchOutputDir files
      = NodePath.join (NodePath.dirname (files.headD "")) "tests" ∧
    spawnedCommands (runGenerateTests env)
      = files.map (fun f =>
          pythonCommand (NodePath.join env.extensionPath "main.py") f
            (batchOutputDir files) (jsTrim raw)) ∧
    ∀ others : List String,
      batchOutputDir (files.headD "" :: others) = batchOutputDir files := by
  refine ⟨rfl,
    spawnedCommands_run_ok env files raw hsel hne hread hkey hdir, ?_⟩
  intro others
  simp [batchOutputDir]

theorem outputDirFromFirstFile_witness :
    batchOutputDir ["/p/Foo.java", "/q/Bar.py"]
      = NodePath.join (NodePath.dirname
          ((["/p/Foo.java", "/q/Bar.py"] : List String).headD "")) "tests" ∧
    spawnedCommands (runGenerateTests envBatch)
      = (["/p/Foo.java", "/q/Bar.py"]).map (fun f =>
          pythonCommand (NodePath.join "/ext" "main.py") f
            (batchOutputDir ["/p/Foo.java", "/q/Bar.py"])
            (jsTrim " KEY123\n")) ∧
    ∀ others : List String,
      batchOutputDir
          ((["/p/Foo.java", "/q/Bar.py"] : List String).headD "" :: others)
        = batchOutputDir ["/p/Foo.java", "/q/Bar.py"] :=
  outputDirFromFirstFile envBatch ["/p/Foo.java", "/q/Bar.py"] " KEY123\n"
    rfl (by decide) rfl (by decide) (Or.inr rfl)

end VertexTester
